import Mathlib

/-!
Shallow embedding of the mbox-to-pdf conversion pipeline
(`src/mbox_converter.py`, `src/error_handling.py`) and proofs about it.

Modelling conventions:
* Python machine-level concerns do not arise (arbitrary-precision ints map to
  `Nat`); bytes are `Fin 256`.
* Fallible Python code (code that may raise) is modelled with `Except String`;
  external libraries used as black boxes by the source (the `mailbox`/`email`
  parsing internals, `xhtml2pdf`, `bleach`, `python-docx`, `openpyxl`, the
  UTF-8 codec, file IO) are modelled as oracle parameters that may return
  errors, so every theorem quantifies over all their possible behaviours.
* In-place mutation of `Attachment` fields by the renderer is modelled by
  returning an updated copy.
-/

namespace Mbox

/-! ### Dates

`parsedate_to_datetime` results are modelled as a concrete calendar value.
Comparison of Python `datetime` values (chronological order) is modelled by a
rank encoding that is order-isomorphic to lexicographic comparison of
(year, month, day, hour, minute, second) for in-range field values
(month ≤ 12, day ≤ 31, hour < 24, minute < 60, second < 60). -/

structure DateTime where
  year : Nat
  month : Nat
  day : Nat
  hour : Nat
  minute : Nat
  second : Nat
deriving DecidableEq

def DateTime.rank (d : DateTime) : Nat :=
  ((((d.year * 13 + d.month) * 32 + d.day) * 24 + d.hour) * 60 + d.minute) * 60 + d.second

/-- Boolean chronological comparison used as a sort key (`key=lambda e: e.date`). -/
def DateTime.le (a b : DateTime) : Bool := decide (a.rank ≤ b.rank)

theorem DateTime.le_trans (a b c : DateTime) (h1 : DateTime.le a b) (h2 : DateTime.le b c) :
    DateTime.le a c := by
  simp only [DateTime.le, decide_eq_true_eq] at *
  omega

theorem DateTime.le_total (a b : DateTime) : DateTime.le a b || DateTime.le b a := by
  simp only [DateTime.le, Bool.or_eq_true, decide_eq_true_eq]
  omega

/-! ### Data model (`mbox_converter.py` dataclasses) -/

abbrev Byte := Fin 256

/-- `Attachment` dataclass: processed email attachment with rendering info. -/
structure Attachment where
  filename : String
  mime_type : String
  size_bytes : Nat
  raw_content : List Byte := []
  rendered_content : Option String := none
  content_type : Option String := none
  error : Option String := none
deriving DecidableEq

/-- `Email` dataclass: parsed message with full header information. -/
structure Email where
  message_id : String
  from_addr : String
  to_addr : String
  date : DateTime
  subject : String
  body_text : String
  body_html : Option String := none
  cc_addr : Option String := none
  bcc_addr : Option String := none
  in_reply_to : Option String := none
  references : Option (List String) := none
  attachments : List Attachment := []
  headers : List (String × String) := []
  x_mailer : Option String := none
deriving DecidableEq

/-- `AttachmentErrorInfo` dataclass (`error_handling.py`): display-ready
snapshot of one attachment failure. -/
structure AttachmentErrorInfo where
  email_subject : String
  email_date : String
  email_from : String
  attachment_filename : String
  mime_type : String
  file_size : String
  error_type : String
  error_message : String
deriving DecidableEq

/-- `ConversionResult` dataclass: outcome of one conversion run. -/
structure ConversionResult where
  success : Bool
  pdfs_created : Nat
  emails_processed : Nat := 0
  errors : List String := []
  attachment_errors : List AttachmentErrorInfo := []
  created_files : List String := []
deriving DecidableEq

/-- Comparison of emails by date (the `key=lambda e: e.date` sort key). -/
def emailDateLe (a b : Email) : Bool := DateTime.le a.date b.date

theorem emailDateLe_trans (a b c : Email) (h1 : emailDateLe a b) (h2 : emailDateLe b c) :
    emailDateLe a c := DateTime.le_trans _ _ _ h1 h2

theorem emailDateLe_total (a b : Email) : emailDateLe a b || emailDateLe b a :=
  DateTime.le_total _ _

/-! ### Date grouping (`_get_group_key`, `group_emails_by_date`) -/

/-- `strftime` month names (`%B`). Months outside 1..12 cannot occur for a
valid `datetime`. -/
def month_name : Nat → String
  | 1 => "January"
  | 2 => "February"
  | 3 => "March"
  | 4 => "April"
  | 5 => "May"
  | 6 => "June"
  | 7 => "July"
  | 8 => "August"
  | 9 => "September"
  | 10 => "October"
  | 11 => "November"
  | 12 => "December"
  | _ => ""

/-- Two-digit zero padding, as in `strftime` field formats such as `%m`. -/
def pad2 (n : Nat) : String := if n < 10 then "0" ++ toString n else toString n

/-- `_get_group_key(date, strategy)`: group key for one date.
`"month"` is `date.strftime("%Y-%m-%B")`, `"quarter"` uses
`(date.month - 1) // 3 + 1`, anything else falls to the `year` branch. -/
def get_group_key (date : DateTime) (strategy : String) : String :=
  if strategy = "month" then
    toString date.year ++ "-" ++ pad2 date.month ++ "-" ++ month_name date.month
  else if strategy = "quarter" then
    toString date.year ++ "-Q" ++ toString ((date.month - 1) / 3 + 1)
  else
    toString date.year

/-- Appending one email under its key, modelling
`if key not in groups: groups[key] = []` followed by `groups[key].append(email)`
on an insertion-ordered Python dict (here an association list). -/
def addToGroup : List (String × List Email) → String → Email → List (String × List Email)
  | [], key, e => [(key, [e])]
  | (k, es) :: gs, key, e =>
    if k = key then (k, es ++ [e]) :: gs else (k, es) :: addToGroup gs key e

/-- Boolean key order used for `dict(sorted(groups.items()))`: Python compares
the `(key, value)` tuples componentwise, and keys are pairwise distinct, so
only the string keys are ever compared. -/
def groupKeyLe (a b : String × List Email) : Bool := decide (a.1 ≤ b.1)

/-- `group_emails_by_date(emails, strategy)`.  The `ValueError` raised on an
invalid strategy is modelled as `Except.error` carrying the message string
(apostrophes written with the `\x27` escape). -/
def group_emails_by_date (emails : List Email) (strategy : String) :
    Except String (List (String × List Email)) :=
  if strategy ∉ (["month", "quarter", "year"] : List String) then
    .error ("Invalid grouping strategy: \x27" ++ strategy ++
      "\x27. Must be \x27month\x27, \x27quarter\x27, or \x27year\x27.")
  else if emails = [] then
    .ok []
  else
    let groups := emails.foldl (fun gs e => addToGroup gs (get_group_key e.date strategy) e) []
    let sortedBuckets := groups.map (fun kv => (kv.1, kv.2.mergeSort emailDateLe))
    .ok (sortedBuckets.mergeSort groupKeyLe)

/-! ### Small string utilities used by the renderers -/

/-- `str.lower()` (ASCII case folding; the MIME types and extension suffixes
compared in the source are ASCII). -/
def py_lower (s : String) : String := String.mk (s.data.map Char.toLower)

/-- `str.endswith(suffix)`. -/
def py_endswith (s suffix : String) : Bool := suffix.data.isSuffixOf s.data

/-- `str.startswith(pre)`. -/
def py_startswith (s pre : String) : Bool := pre.data.isPrefixOf s.data

/-- `html.escape(s)` (with quoting): the sequential `str.replace` chain of the
stdlib is extensionally the following character-wise map, since the ampersands
introduced by the replacements are produced after the `&` pass. -/
def html_escape (s : String) : String :=
  String.join (s.data.map fun c =>
    if c = '&' then "&amp;"
    else if c = '<' then "&lt;"
    else if c = '>' then "&gt;"
    else if c = Char.ofNat 34 then "&quot;"
    else if c = Char.ofNat 39 then "&#x27;"
    else String.singleton c)

/-- ASCII whitespace recognised by Python `str.strip()` / `str.split()`
(space, tab, newline, carriage return, vertical tab, form feed). -/
def is_python_space (c : Char) : Bool :=
  c = ' ' || c = Char.ofNat 9 || c = Char.ofNat 10 ||
  c = Char.ofNat 13 || c = Char.ofNat 11 || c = Char.ofNat 12

/-- Truthiness of `s.strip()`: true when some character is not whitespace. -/
def strip_nonempty (s : String) : Bool := s.data.any (fun c => !is_python_space c)

/-- `s.split()` with no separator: split on whitespace runs, dropping empty
fields (used for the `References` header). -/
def python_split_ws (s : String) : List String :=
  (s.split (fun c => is_python_space c)).filter (fun t => t ≠ "")

/-- Round `num / den` to the nearest integer, ties to even — the rounding
performed by `"%.1f"` on an exactly-representable float. -/
def round_half_even (num den : Nat) : Nat :=
  let q := num / den
  let r := num % den
  if 2 * r < den then q else if den < 2 * r then q + 1 else if q % 2 = 0 then q else q + 1

/-- Print `tenths / 10` with exactly one decimal place. -/
def one_decimal (tenths : Nat) : String := toString (tenths / 10) ++ "." ++ toString (tenths % 10)

/-- `format_file_size` (`error_handling.py`) and the body of
`Attachment.format_size_for_display`: the B/KB/MB/GB loop.  The float
divisions by 1024 are exact for sizes below 2^53 and `"%.1f"` rounds the
resulting exact value half-to-even, so the computation is modelled exactly by
rational rounding.  The `size_bytes < 0` guard cannot fire for a `Nat`. -/
def format_file_size (size_bytes : Nat) : String :=
  if size_bytes < 1024 then toString size_bytes ++ " B"
  else if size_bytes < 1024 * 1024 then
    one_decimal (round_half_even (size_bytes * 10) 1024) ++ " KB"
  else if size_bytes < 1024 * 1024 * 1024 then
    one_decimal (round_half_even (size_bytes * 10) (1024 * 1024)) ++ " MB"
  else one_decimal (round_half_even (size_bytes * 10) (1024 * 1024 * 1024)) ++ " GB"

/-- `Attachment.format_size_for_display`: same loop as `format_file_size`. -/
def Attachment.format_size_for_display (a : Attachment) : String :=
  format_file_size a.size_bytes

def b64_alphabet : List Char :=
  "ABCDEFGHIJKLMNOPQRSTUVWXYZabcdefghijklmnopqrstuvwxyz0123456789+/".data

def b64_char (n : Nat) : Char := b64_alphabet.getD n (Char.ofNat 65)

/-- `base64.b64encode(...).decode("ascii")`. -/
def base64_encode : List Byte → String
  | [] => ""
  | [b1] =>
    String.mk [b64_char (b1.val / 4), b64_char (b1.val % 4 * 16)] ++ "=="
  | [b1, b2] =>
    String.mk [b64_char (b1.val / 4), b64_char (b1.val % 4 * 16 + b2.val / 16),
      b64_char (b2.val % 16 * 4)] ++ "="
  | b1 :: b2 :: b3 :: rest =>
    String.mk [b64_char (b1.val / 4), b64_char (b1.val % 4 * 16 + b2.val / 16),
      b64_char (b2.val % 16 * 4 + b3.val / 64), b64_char (b3.val % 64)] ++ base64_encode rest

/-! ### Text decoding fallbacks (`_render_csv` / `_render_html` / `_render_text`) -/

/-- `bytes.decode("latin-1")`: Latin-1 maps every byte 0..255 directly to the
code point of the same value, so the decode is total. -/
def latin1_decode (bs : List Byte) : String := String.mk (bs.map (fun b => Char.ofNat b.val))

/-- `bytes.decode("latin-1")` as it appears inside a `try` block returning
`UnicodeDecodeError` on failure; the Latin-1 codec accepts every byte, so it
always succeeds. -/
def latin1_decode_strict (bs : List Byte) : Option String := some (latin1_decode bs)

/-- `bytes.decode("latin-1", errors="replace")`: no byte is invalid for
Latin-1, so lossy replacement coincides with the strict decode. -/
def latin1_decode_replace (bs : List Byte) : String := latin1_decode bs

/-- The stdlib UTF-8 codec, a black box: `utf8_strict bs = none` models a
`UnicodeDecodeError` from `bytes.decode("utf-8")`, and `utf8_replace` models
the total `bytes.decode("utf-8", errors="replace")`. -/
structure TextCodec where
  utf8_strict : List Byte → Option String
  utf8_replace : List Byte → String

/-- The decode chain of `_render_csv`: UTF-8, falling back to Latin-1 with
replacement. -/
def decode_for_csv (c : TextCodec) (bs : List Byte) : String :=
  match c.utf8_strict bs with
  | some s => s
  | none => latin1_decode_replace bs

/-- The decode chain of `_render_html`: UTF-8, then strict Latin-1, then UTF-8
with replacement. -/
def decode_for_html (c : TextCodec) (bs : List Byte) : String :=
  match c.utf8_strict bs with
  | some s => s
  | none =>
    match latin1_decode_strict bs with
    | some s => s
    | none => c.utf8_replace bs

/-- The decode chain of `_render_text`, written identically to
`_render_html`'s in the source. -/
def decode_for_text (c : TextCodec) (bs : List Byte) : String :=
  match c.utf8_strict bs with
  | some s => s
  | none =>
    match latin1_decode_strict bs with
    | some s => s
    | none => c.utf8_replace bs

/-! ### Attachment rendering (`render_attachment` and the `_render_*` family)

The external rendering libraries (`csv.reader`, `bleach.clean`, `python-docx`,
`openpyxl`) are black boxes; each is an oracle that either yields its parsed
value or fails with the message of the exception it raised. -/

structure RenderLibs where
  /-- `list(csv.reader(io.StringIO(content)))`. -/
  csv_rows : String → Except String (List (List String))
  /-- `bleach.clean(content, tags=..., attributes=..., strip=True)`. -/
  bleach_clean : String → Except String String
  /-- `python-docx`: the `paragraph.text` values of `Document(raw).paragraphs`. -/
  docx_text : List Byte → Except String (List String)
  /-- `openpyxl`: per sheet, the sheet name and `str(cell.value)` for each
  cell (`''` for `None`), for `load_workbook(raw)`. -/
  xlsx_sheets : List Byte → Except String (List (String × List (List String)))

/-- `_render_reference`: metadata card for attachments that cannot be
rendered. -/
def render_reference (a : Attachment) : String :=
  let filename := html_escape a.filename
  let mime_type := html_escape a.mime_type
  let size := a.format_size_for_display
  "<div class=\"attachment-reference\">" ++
  "<strong>Attachment:</strong> " ++ filename ++ "<br/>" ++
  "<small>Type: " ++ mime_type ++ " | Size: " ++ size ++ "</small><br/>" ++
  "<em>This attachment type cannot be rendered in the PDF.</em>" ++
  "</div>"

/-- `_render_csv`: decode, parse with `csv.reader`, render as a table;
an empty row list degrades to the reference card. -/
def render_csv (libs : RenderLibs) (c : TextCodec) (a : Attachment) : Except String String :=
  let content := decode_for_csv c a.raw_content
  match libs.csv_rows content with
  | .error e => .error e
  | .ok rows =>
    match rows with
    | [] => .ok (render_reference a)
    | r0 :: rest =>
      .ok ("<table class=\"attachment-csv\">" ++
        "<thead><tr>" ++
        String.join (r0.map fun cell => "<th>" ++ html_escape cell ++ "</th>") ++
        "</tr></thead>" ++
        (if rest ≠ [] then
          "<tbody>" ++
          String.join (rest.map fun row =>
            "<tr>" ++ String.join (row.map fun cell => "<td>" ++ html_escape cell ++ "</td>") ++
            "</tr>") ++
          "</tbody>"
        else "") ++
        "</table>")

/-- `_render_html`: decode, sanitize with `bleach.clean`, wrap. -/
def render_html (libs : RenderLibs) (c : TextCodec) (a : Attachment) : Except String String :=
  let content := decode_for_html c a.raw_content
  match libs.bleach_clean content with
  | .error e => .error e
  | .ok sanitized => .ok ("<div class=\"attachment-html\">" ++ sanitized ++ "</div>")

/-- `_render_text`: decode, escape, paragraphs on blank lines with internal
line breaks preserved. -/
def render_text (c : TextCodec) (a : Attachment) : String :=
  let content := decode_for_text c a.raw_content
  let escaped := html_escape content
  let paragraphs := escaped.splitOn "\n\n"
  let formatted := String.join (paragraphs.filterMap fun para =>
    if strip_nonempty para then some ("<p>" ++ para.replace "\n" "<br/>" ++ "</p>") else none)
  "<div class=\"attachment-text\">" ++ formatted ++ "</div>"

/-- `_render_docx`: join non-blank paragraph texts with blank lines; empty
extraction degrades to the reference card. -/
def render_docx (libs : RenderLibs) (a : Attachment) : Except String String :=
  match libs.docx_text a.raw_content with
  | .error e => .error e
  | .ok paras =>
    let text := String.intercalate "\n\n" (paras.filter fun p => strip_nonempty p)
    if text = "" then .ok (render_reference a)
    else
      let paragraphs := text.splitOn "\n\n"
      let formatted := String.join (paragraphs.filterMap fun para =>
        if strip_nonempty para then
          some ("<p>" ++ (html_escape para).replace "\n" "<br/>" ++ "</p>")
        else none)
      .ok ("<div class=\"attachment-docx\">" ++ formatted ++ "</div>")

/-- `_render_xlsx`: one heading and table per sheet; no sheets degrades to the
reference card. -/
def render_xlsx (libs : RenderLibs) (a : Attachment) : Except String String :=
  match libs.xlsx_sheets a.raw_content with
  | .error e => .error e
  | .ok sheets =>
    let html_parts := sheets.map fun sheet =>
      "<h4 style=\"margin-top: 1em; margin-bottom: 0.5em;\">" ++ html_escape sheet.1 ++ "</h4>" ++
      "<table class=\"attachment-xlsx\">" ++
      String.join (sheet.2.map fun row =>
        "<tr>" ++ String.join (row.map fun value => "<td>" ++ html_escape value ++ "</td>") ++
        "</tr>") ++
      "</table>"
    if html_parts = [] then .ok (render_reference a)
    else .ok ("<div class=\"attachment-xlsx\">" ++ String.join html_parts ++ "</div>")

/-- `_render_image`: base64 data-URI image tag. -/
def render_image (a : Attachment) : String :=
  "<img src=\"data:" ++ a.mime_type ++ ";base64," ++ base64_encode a.raw_content ++
  "\" alt=\"" ++ html_escape a.filename ++ "\" class=\"attachment-image\" />"

/-- The `try` block of `render_attachment`: MIME/extension dispatch, yielding
the rendered HTML and the `content_type` tag assigned on that branch, or the
first exception raised. -/
def try_render (libs : RenderLibs) (c : TextCodec) (a : Attachment) :
    Except String (String × String) :=
  let mime_type := py_lower a.mime_type
  let filename := a.filename
  if mime_type = "text/csv" || py_endswith (py_lower filename) ".csv" then
    (render_csv libs c a).map (fun h => (h, "table"))
  else if mime_type = "text/html" || py_endswith (py_lower filename) ".html" ||
      py_endswith (py_lower filename) ".htm" then
    (render_html libs c a).map (fun h => (h, "html"))
  else if mime_type = "application/vnd.openxmlformats-officedocument.wordprocessingml.document"
      || py_endswith (py_lower filename) ".docx" then
    (render_docx libs a).map (fun h => (h, "docx"))
  else if mime_type = "application/vnd.openxmlformats-officedocument.spreadsheetml.sheet"
      || py_endswith (py_lower filename) ".xlsx" then
    (render_xlsx libs a).map (fun h => (h, "xlsx"))
  else if py_startswith mime_type "text/" then .ok (render_text c a, "text")
  else if py_startswith mime_type "image/" then .ok (render_image a, "image")
  else .ok (render_reference a, "reference")

/-- `render_attachment`: dispatch inside a `try`; on an exception, record the
error, fall back to the reference card and tag the attachment `"reference"`.
The in-place mutation of the attachment is modelled by returning the updated
copy alongside the HTML; the function is total — it never raises. -/
def render_attachment (libs : RenderLibs) (c : TextCodec) (a : Attachment) :
    String × Attachment :=
  match try_render libs c a with
  | .ok (html_content, tag) =>
    (html_content, { a with content_type := some tag, rendered_content := some html_content })
  | .error e =>
    let a' := { a with error := some e }
    let html_content := render_reference a'
    (html_content, { a' with content_type := some "reference", rendered_content := some html_content })

/-! ### `strftime` helpers for the header date formats -/

/-- `%A` weekday names, indexed 0 = Sunday. -/
def day_name : Nat → String
  | 0 => "Sunday"
  | 1 => "Monday"
  | 2 => "Tuesday"
  | 3 => "Wednesday"
  | 4 => "Thursday"
  | 5 => "Friday"
  | 6 => "Saturday"
  | _ => ""

/-- `%a` abbreviated weekday names, indexed 0 = Sunday. -/
def day_abbr : Nat → String
  | 0 => "Sun"
  | 1 => "Mon"
  | 2 => "Tue"
  | 3 => "Wed"
  | 4 => "Thu"
  | 5 => "Fri"
  | 6 => "Sat"
  | _ => ""

/-- Day of week (0 = Sunday) by Sakamoto's method, modelling the weekday the
`datetime` library derives from the calendar date. -/
def weekday (y m d : Nat) : Nat :=
  let t : List Nat := [0, 3, 2, 5, 0, 3, 5, 1, 4, 6, 2, 4]
  let y := if m < 3 then y - 1 else y
  (y + y / 4 - y / 100 + y / 400 + t.getD (m - 1) 0 + d) % 7

/-- `%I`: 12-hour clock value. -/
def hour12 (h : Nat) : Nat := if h % 12 = 0 then 12 else h % 12

/-- `%p`. -/
def am_pm (h : Nat) : String := if h < 12 then "AM" else "PM"

/-- `date.strftime("%A, %B %d, %Y at %I:%M %p")` (email header date). -/
def strftime_full (d : DateTime) : String :=
  day_name (weekday d.year d.month d.day) ++ ", " ++ month_name d.month ++ " " ++
  pad2 d.day ++ ", " ++ toString d.year ++ " at " ++
  pad2 (hour12 d.hour) ++ ":" ++ pad2 d.minute ++ " " ++ am_pm d.hour

/-- `date.strftime("%a, %B %d, %Y at %I:%M %p")` (attachment-error records). -/
def strftime_abbr (d : DateTime) : String :=
  day_abbr (weekday d.year d.month d.day) ++ ", " ++ month_name d.month ++ " " ++
  pad2 d.day ++ ", " ++ toString d.year ++ " at " ++
  pad2 (hour12 d.hour) ++ ":" ++ pad2 d.minute ++ " " ++ am_pm d.hour

/-! ### Email rendering (`render_email_to_html` and helpers) -/

/-- `_render_header_field`. -/
def render_header_field (label value : String) : String :=
  "<div class=\"header-field\">" ++
  "<span class=\"header-label\">" ++ label ++ ":</span> " ++
  "<span class=\"header-value\">" ++ value ++ "</span>" ++
  "</div>"

/-- One `if <optional header>:` guard of `_render_email_header`: Python
truthiness makes both `None` and the empty string skip the field. -/
def optional_header_field (label : String) (v : Option String) : String :=
  match v with
  | some s => if s = "" then "" else render_header_field label (html_escape s)
  | none => ""

/-- `_render_email_header`. -/
def render_email_header (email : Email) : String :=
  "<div class=\"email-header\">" ++
  render_header_field "Date" (strftime_full email.date) ++
  render_header_field "From" (html_escape email.from_addr) ++
  render_header_field "To" (html_escape email.to_addr) ++
  optional_header_field "CC" email.cc_addr ++
  optional_header_field "BCC" email.bcc_addr ++
  render_header_field "Subject" (html_escape email.subject) ++
  render_header_field "Message-ID" (html_escape email.message_id) ++
  optional_header_field "In-Reply-To" email.in_reply_to ++
  (match email.references with
   | some refs =>
     if refs = [] then ""
     else render_header_field "References" (html_escape (String.intercalate " " refs))
   | none => "") ++
  optional_header_field "X-Mailer" email.x_mailer ++
  "</div>"

/-- The `elif email.body_text:` branch of `_render_email_body`. -/
def render_plaintext_body (body_text : String) : String :=
  if body_text = "" then ""
  else
    let escaped := html_escape body_text
    let paragraphs := escaped.splitOn "\n\n"
    let formatted := String.join (paragraphs.filterMap fun para =>
      if strip_nonempty para then some ("<p>" ++ para.replace "\n" "<br/>" ++ "</p>") else none)
    "<div class=\"plaintext-body\">" ++ formatted ++ "</div>"

/-- `_render_email_body`: the HTML body if truthy, else the plain-text body if
truthy, else nothing. -/
def render_email_body (email : Email) : String :=
  "<div class=\"email-body\">" ++
  (match email.body_html with
   | some bh =>
     if bh = "" then render_plaintext_body email.body_text
     else "<div class=\"html-body\">" ++ bh ++ "</div>"
   | none => render_plaintext_body email.body_text) ++
  "</div>"

/-- `_render_attachments_section`: renders each attachment (which updates its
renderer-set fields) and returns the section HTML plus the updated
attachments. -/
def render_attachments_section (libs : RenderLibs) (c : TextCodec)
    (attachments : List Attachment) : String × List Attachment :=
  let rendered := attachments.map fun attachment =>
    let ra := render_attachment libs c attachment
    ("<div class=\"attachment-item\">" ++
     "<div class=\"attachment-name\">" ++ html_escape attachment.filename ++
     " <small>(" ++ attachment.format_size_for_display ++ ")</small></div>" ++
     "<div class=\"attachment-content\">" ++ ra.1 ++ "</div>" ++
     "</div>", ra.2)
  ("<div class=\"attachments-section\">" ++
   "<h3 class=\"attachments-header\">Attachments</h3>" ++
   String.join (rendered.map (fun r => r.1)) ++
   "</div>", rendered.map (fun r => r.2))

/-- `render_email_to_html`: header, body and (when attachments exist) the
attachments section; the returned email carries the renderer-updated
attachments. -/
def render_email_to_html (libs : RenderLibs) (c : TextCodec) (email : Email) :
    String × Email :=
  let header := render_email_header email
  let body := render_email_body email
  if email.attachments = [] then
    ("<div class=\"email-message\">" ++ header ++ body ++ "</div>", email)
  else
    let sec := render_attachments_section libs c email.attachments
    ("<div class=\"email-message\">" ++ header ++ body ++ sec.1 ++ "</div>",
     { email with attachments := sec.2 })

/-! ### Parsing (`_parse_message`, `parse_mbox`) and deduplication

`mailbox.mboxMessage` objects are black boxes; a message is modelled by the
results of the accessor calls the source makes on it: the `message.get(...)`
header lookups (`none` models an absent header), the already-parsed `Date`
header (`date_parsed = none` models `parsedate_to_datetime` raising
`ValueError`/`TypeError`), and the results of the
`_extract_body_and_attachments` part walk (body text, optional HTML body,
attachments) together with the full header mapping. -/

structure MboxMessage where
  message_id : Option String := none
  from_addr : Option String := none
  to_addr : Option String := none
  subject : Option String := none
  date_parsed : Option DateTime := none
  cc_addr : Option String := none
  bcc_addr : Option String := none
  in_reply_to : Option String := none
  x_mailer : Option String := none
  references_str : Option String := none
  body_text : String := ""
  body_html : Option String := none
  attachments : List Attachment := []
  headers : List (String × String) := []
deriving DecidableEq

/-- `_parse_message`: required headers default to `''`
(`message.get('Message-ID', '')` and friends); an unparseable date drops the
message; `References` is split on whitespace when truthy. -/
def parse_message (m : MboxMessage) : Option Email :=
  let message_id := m.message_id.getD ""
  let from_addr := m.from_addr.getD ""
  let to_addr := m.to_addr.getD ""
  let subject := m.subject.getD ""
  match m.date_parsed with
  | none => none
  | some date =>
    let references : Option (List String) :=
      match m.references_str with
      | some s => if s = "" then none else some (python_split_ws s)
      | none => none
    some { message_id, from_addr, to_addr, date, subject,
           body_text := m.body_text, body_html := m.body_html,
           cc_addr := m.cc_addr, bcc_addr := m.bcc_addr,
           in_reply_to := m.in_reply_to, references,
           attachments := m.attachments, headers := m.headers,
           x_mailer := m.x_mailer }

/-- `parse_mbox` on the message sequence of one file: parse each message,
drop the malformed ones, and sort by date ascending (Python's stable sort is
modelled by the stable `mergeSort`).  The `FileNotFoundError` path and the
`mailbox.mbox` iteration live in the read oracle of `merge_and_deduplicate`. -/
def parse_mbox (msgs : List MboxMessage) : List Email :=
  (msgs.filterMap parse_message).mergeSort emailDateLe

/-- The `seen_message_ids` filter of `merge_and_deduplicate` over one parsed
file, threading the set of already-seen ids (modelled as a list). -/
def dedup_emails : List Email → List String → List Email
  | [], _ => []
  | e :: es, seen =>
    if e.message_id ∈ seen then dedup_emails es seen
    else e :: dedup_emails es (e.message_id :: seen)

/-- The `seen_message_ids` set after processing one parsed file. -/
def seen_after : List Email → List String → List String
  | [], seen => seen
  | e :: es, seen =>
    if e.message_id ∈ seen then seen_after es seen
    else seen_after es (e.message_id :: seen)

/-- The file loop of `merge_and_deduplicate`: parse each path via the read
oracle (whose errors model `parse_mbox` raising, e.g. `FileNotFoundError`) and
keep first occurrences of each message id. -/
def merge_loop (read : String → Except String (List MboxMessage)) :
    List String → List String → Except String (List Email)
  | [], _ => .ok []
  | p :: ps, seen =>
    match read p with
    | .error e => .error e
    | .ok msgs =>
      let emails := parse_mbox msgs
      match merge_loop read ps (seen_after emails seen) with
      | .error e => .error e
      | .ok rest => .ok (dedup_emails emails seen ++ rest)

/-- `merge_and_deduplicate`: dedup across files, then sort by date
ascending. -/
def merge_and_deduplicate (read : String → Except String (List MboxMessage))
    (mbox_paths : List String) : Except String (List Email) :=
  match merge_loop read mbox_paths [] with
  | .error e => .error e
  | .ok unique_emails => .ok (unique_emails.mergeSort emailDateLe)

/-! ### Continuation-header stamping (`add_continuation_headers`) and PDF
merging

A PDF is a list of pages; a page has an abstract content identity plus the
list of overlays composited onto it (`page.merge_page`). -/

structure PdfPage where
  content : Nat
  overlays : List String := []
deriving DecidableEq

/-- The text drawn by `create_header_overlay(page_num)`: subject truncated to
60 characters (with `"..."` appended when longer). -/
def header_text (subject : String) (page_num total_pages : Nat) : String :=
  let max_subject_len := 60
  let display_subject :=
    if subject.length > max_subject_len then subject.take max_subject_len ++ "..." else subject
  "Subject: " ++ display_subject ++ " (continued - page " ++ toString page_num ++
  " of " ++ toString total_pages ++ ")"

/-- `page.merge_page(header_page)`: composite one overlay onto a page. -/
def merge_page (page : PdfPage) (overlay : String) : PdfPage :=
  { page with overlays := page.overlays ++ [overlay] }

/-- `add_continuation_headers`: a single-page (or empty) PDF is copied through
page by page; otherwise page 1 is copied unchanged and page `i+1` gets the
header overlay for page number `i+1`.  `from_addr` is accepted but unused, as
in the source. -/
def add_continuation_headers (pages : List PdfPage) (subject from_addr : String) :
    List PdfPage :=
  let total_pages := pages.length
  if total_pages ≤ 1 then pages
  else pages.enum.map fun ip =>
    if ip.1 = 0 then ip.2 else merge_page ip.2 (header_text subject (ip.1 + 1) total_pages)

/-- `merge_pdfs`: concatenate all pages in order and write the result; the
file write is a black-box oracle that may fail. -/
def merge_pdfs (write : List PdfPage → String → Except String Unit)
    (pdf_docs : List (List PdfPage)) (output_path : String) : Except String String :=
  match write pdf_docs.flatten output_path with
  | .error e => .error e
  | .ok _ => .ok output_path

/-! ### Orchestration (`convert_mbox_to_pdfs`)

The progress callback is modelled as pure (it cannot raise), and the
filesystem side effects (`mkdir`, temporary directories) are outside the
model; the fallible black boxes are the read oracle, `generate_pdf`
(xhtml2pdf plus the data-URI rewriting) and the merged-PDF write. -/

structure ConvEnv where
  read_mbox : String → Except String (List MboxMessage)
  libs : RenderLibs
  codec : TextCodec
  /-- `generate_pdf(html, path, image_temp_dir)`: yields the pages of the
  produced PDF, or the `RuntimeError`/exception message. -/
  generate_pdf : String → Except String (List PdfPage)
  /-- The file write inside `merge_pdfs`. -/
  write_pdf : List PdfPage → String → Except String Unit

/-- The attachment-issue side channel of the per-email loop: a
`rendering_failed` record when the renderer recorded an error, else an
`unsupported_type` record when the attachment fell back to the reference
card. -/
def collect_attachment_errors (email : Email) (atts : List Attachment) :
    List AttachmentErrorInfo :=
  atts.filterMap fun attachment =>
    match attachment.error with
    | some err =>
      some { email_subject := email.subject,
             email_date := strftime_abbr email.date,
             email_from := email.from_addr,
             attachment_filename := attachment.filename,
             mime_type := attachment.mime_type,
             file_size := attachment.format_size_for_display,
             error_type := "rendering_failed",
             error_message := "Could not render attachment: " ++ err }
    | none =>
      if attachment.content_type = some "reference" then
        some { email_subject := email.subject,
               email_date := strftime_abbr email.date,
               email_from := email.from_addr,
               attachment_filename := attachment.filename,
               mime_type := attachment.mime_type,
               file_size := attachment.format_size_for_display,
               error_type := "unsupported_type",
               error_message := "This file type cannot be rendered in the PDF." }
      else none

/-- Error/side-channel accumulator of one conversion run. -/
structure ConvState where
  errors : List String := []
  attachment_errors : List AttachmentErrorInfo := []
  created_files : List String := []
deriving DecidableEq

/-- One iteration of the per-email `try` block: render, collect attachment
issues, generate the raw PDF, stamp continuation headers; an exception turns
into a `Failed to process email ...` entry and the email is skipped. -/
def process_email_step (env : ConvEnv) (acc : ConvState × List (List PdfPage))
    (email : Email) : ConvState × List (List PdfPage) :=
  let st := acc.1
  let pdfs := acc.2
  let re := render_email_to_html env.libs env.codec email
  let st := { st with
    attachment_errors := st.attachment_errors ++ collect_attachment_errors email re.2.attachments }
  match env.generate_pdf re.1 with
  | .ok raw_pdf =>
    (st, pdfs ++ [add_continuation_headers raw_pdf email.subject email.from_addr])
  | .error e =>
    ({ st with errors := st.errors ++
        ["Failed to process email \x27" ++ email.subject ++ "\x27: " ++ e] }, pdfs)

/-- One iteration of the per-group loop: process each email, then merge the
successful per-email PDFs into `<output_dir>/<group_key>.pdf`; an empty batch
or a failed merge is recorded and the run continues. -/
def process_group (env : ConvEnv) (st : ConvState) (output_dir group_key : String)
    (group_emails : List Email) : ConvState :=
  let folded := group_emails.foldl (process_email_step env) (st, [])
  let st1 := folded.1
  let email_pdfs := folded.2
  if email_pdfs = [] then
    { st1 with errors := st1.errors ++ ["No emails processed for group " ++ group_key] }
  else
    let pdf_path := output_dir ++ "/" ++ group_key ++ ".pdf"
    match merge_pdfs env.write_pdf email_pdfs pdf_path with
    | .ok p => { st1 with created_files := st1.created_files ++ [p] }
    | .error e =>
      { st1 with errors := st1.errors ++ ["Failed to merge PDFs for " ++ group_key ++ ": " ++ e] }

/-- `convert_mbox_to_pdfs`: parse+dedup (exceptions become a failed result),
early-return on zero emails, group by date (NOT wrapped in a `try` in the
source: a grouping `ValueError` propagates to the caller, modelled by
`Except.error`), then the per-group generation loop, and the final result. -/
def convert_mbox_to_pdfs (env : ConvEnv) (mbox_paths : List String)
    (output_dir grouping_strategy : String) : Except String ConversionResult :=
  match merge_and_deduplicate env.read_mbox mbox_paths with
  | .error e =>
    .ok { success := false, pdfs_created := 0, emails_processed := 0,
          errors := ["Failed to parse mbox files: " ++ e], created_files := [] }
  | .ok emails =>
    if emails = [] then
      .ok { success := true, pdfs_created := 0, emails_processed := 0,
            errors := ["No emails found in the provided mbox files"], created_files := [] }
    else
      let emails_processed := emails.length
      match group_emails_by_date emails grouping_strategy with
      | .error e => .error e
      | .ok groups =>
        let final := groups.foldl
          (fun st kv => process_group env st output_dir kv.1 kv.2) {}
        .ok { success := final.created_files.length > 0,
              pdfs_created := final.created_files.length,
              emails_processed := emails_processed,
              errors := final.errors,
              attachment_errors := final.attachment_errors,
              created_files := final.created_files }

/-! ## Theorems -/

/-- C8: for every attachment byte content, the CSV, HTML and generic-text
rendering paths decode text identically — the same two-step fallback (UTF-8
first, then Latin-1, whose lossy-replacement variant coincides with the strict
decode because Latin-1 accepts every byte) — and, being total functions into
`String`, never fail for any byte sequence; the third step of the HTML/text
chains (UTF-8 with replacement) is unreachable. -/
theorem decode_fallback_uniform (c : TextCodec) (bs : List Byte) :
    decode_for_csv c bs = decode_for_html c bs ∧
    decode_for_html c bs = decode_for_text c bs ∧
    decode_for_csv c bs =
      (match c.utf8_strict bs with
       | some s => s
       | none => latin1_decode_replace bs) := by
  unfold decode_for_csv decode_for_html decode_for_text latin1_decode_strict
    latin1_decode_replace
  cases c.utf8_strict bs <;> simp

/-- C6: group keys have the claimed formats: `month` gives
`YYYY-MM-MonthName` (zero-padded month), `quarter` gives `YYYY-Qn` with
`n = (month - 1) / 3 + 1` (the floor formula), `year` gives the year alone;
in particular a date of 2008-01-04 yields `"2008-01-January"`, `"2008-Q1"`
and `"2008"`. -/
theorem get_group_key_formats (d : DateTime) (h1 : 1 ≤ d.month) (h2 : d.month ≤ 12) :
    get_group_key d "month" = toString d.year ++ "-" ++ pad2 d.month ++ "-" ++ month_name d.month ∧
    get_group_key d "quarter" = toString d.year ++ "-Q" ++ toString ((d.month - 1) / 3 + 1) ∧
    get_group_key d "year" = toString d.year ∧
    get_group_key ⟨2008, 1, 4, 0, 0, 0⟩ "month" = "2008-01-January" ∧
    get_group_key ⟨2008, 1, 4, 0, 0, 0⟩ "quarter" = "2008-Q1" ∧
    get_group_key ⟨2008, 1, 4, 0, 0, 0⟩ "year" = "2008" := by
  refine ⟨rfl, ?_, ?_, by decide, by decide, by decide⟩
  · unfold get_group_key
    rw [if_neg (by decide), if_pos rfl]
  · unfold get_group_key
    rw [if_neg (by decide), if_neg (by decide)]

/-- Witness for C6 at the concrete date 2008-01-04. -/
theorem get_group_key_formats_witness :
    get_group_key ⟨2008, 1, 4, 0, 0, 0⟩ "month" = "2008-01-January" :=
  (get_group_key_formats ⟨2008, 1, 4, 0, 0, 0⟩ (by decide) (by decide)).2.2.2.1

/-- C5: `group_emails_by_date` fails exactly when the strategy is not one of
`"month"`, `"quarter"`, `"year"`; the error message contains the offending
strategy string; and with a valid strategy the empty input yields the empty
mapping rather than an error. -/
theorem group_emails_by_date_strategy_validation (emails : List Email) (strategy : String) :
    ((group_emails_by_date emails strategy).isOk = true ↔
      strategy ∈ (["month", "quarter", "year"] : List String)) ∧
    (∀ msg, group_emails_by_date emails strategy = .error msg →
      List.IsInfix strategy.data msg.data) ∧
    (strategy ∈ (["month", "quarter", "year"] : List String) →
      group_emails_by_date [] strategy = .ok []) := by
  refine ⟨?_, ?_, ?_⟩
  · unfold group_emails_by_date
    by_cases hs : strategy ∈ (["month", "quarter", "year"] : List String)
    · rw [if_neg (not_not_intro hs)]
      by_cases he : emails = [] <;>
        simp [he, hs, Except.isOk, Except.toBool]
    · rw [if_pos hs]
      simp [Except.isOk, Except.toBool, hs]
  · intro msg hmsg
    unfold group_emails_by_date at hmsg
    by_cases hs : strategy ∈ (["month", "quarter", "year"] : List String)
    · rw [if_neg (not_not_intro hs)] at hmsg
      by_cases he : emails = [] <;> simp [he] at hmsg
    · rw [if_pos hs] at hmsg
      have hm : ("Invalid grouping strategy: \x27" ++ strategy ++
          "\x27. Must be \x27month\x27, \x27quarter\x27, or \x27year\x27.") = msg := by
        simpa using hmsg
      refine ⟨("Invalid grouping strategy: \x27").data,
        ("\x27. Must be \x27month\x27, \x27quarter\x27, or \x27year\x27.").data, ?_⟩
      rw [← hm]
      simp
  · intro hs
    unfold group_emails_by_date
    rw [if_neg (not_not_intro hs)]
    simp

/-- Witness for C5: the invalid strategy `"invalid"` produces an error whose
message contains `"invalid"`, and valid strategies on the empty list give the
empty mapping. -/
theorem group_emails_by_date_strategy_validation_witness :
    List.IsInfix "invalid".data
      ("Invalid grouping strategy: \x27invalid\x27. Must be \x27month\x27, \x27quarter\x27, or \x27year\x27.").data ∧
    group_emails_by_date [] "month" = .ok [] ∧
    (group_emails_by_date ([] : List Email) "invalid").isOk = false :=
  ⟨(group_emails_by_date_strategy_validation [] "invalid").2.1 _ rfl,
   (group_emails_by_date_strategy_validation [] "month").2.2 (by decide),
   by decide⟩

/-- C7: the continuation-header stamper preserves the page count; a
single-page (or empty) input is passed through unchanged with no overlay; for
a multi-page input page 1 is unchanged and every page `i ≥ 2` gets exactly one
header overlay whose text is the subject truncated to 60 characters (with
`"..."` appended when longer) and the `(continued - page i of TOTAL)`
suffix. -/
theorem add_continuation_headers_spec (pages : List PdfPage) (subject from_addr : String) :
    (add_continuation_headers pages subject from_addr).length = pages.length ∧
    (pages.length ≤ 1 → add_continuation_headers pages subject from_addr = pages) ∧
    (2 ≤ pages.length →
      (add_continuation_headers pages subject from_addr)[0]? = pages[0]? ∧
      ∀ i, 1 ≤ i → i < pages.length →
        (add_continuation_headers pages subject from_addr)[i]? =
          (pages[i]?).map (fun p => merge_page p (header_text subject (i + 1) pages.length))) ∧
    (∀ s n t, header_text s n t =
      "Subject: " ++ (if s.length > 60 then s.take 60 ++ "..." else s) ++
      " (continued - page " ++ toString n ++ " of " ++ toString t ++ ")") := by
  refine ⟨?_, ?_, ?_, fun s n t => rfl⟩
  · by_cases h : pages.length ≤ 1
    · simp [add_continuation_headers, h]
    · simp [add_continuation_headers, h, List.enum]
  · intro h
    simp [add_continuation_headers, h]
  · intro h2
    have h : ¬ pages.length ≤ 1 := by omega
    constructor
    · simp only [add_continuation_headers, if_neg h, List.enum]
      rw [List.getElem?_map, List.getElem?_enumFrom]
      cases hp : pages[0]? <;> simp
    · intro i h1 hlt
      simp only [add_continuation_headers, if_neg h, List.enum]
      rw [List.getElem?_map, List.getElem?_enumFrom]
      cases hp : pages[i]? with
      | none => simp
      | some p =>
        simp only [Option.map_some', Nat.zero_add]
        rw [if_neg (by omega : ¬ i = 0)]

/-- Witness for C7: a one-page PDF passes through unchanged, and page 2 of a
three-page PDF gains exactly the page-2-of-3 header overlay. -/
theorem add_continuation_headers_spec_witness :
    add_continuation_headers [⟨0, []⟩] "s" "f" = [⟨0, []⟩] ∧
    (add_continuation_headers [⟨0, []⟩, ⟨1, []⟩, ⟨2, []⟩] "s" "f")[1]? =
      some (merge_page ⟨1, []⟩ (header_text "s" 2 3)) ∧
    (add_continuation_headers [⟨0, []⟩, ⟨1, []⟩, ⟨2, []⟩] "s" "f").length = 3 := by
  refine ⟨(add_continuation_headers_spec [⟨0, []⟩] "s" "f").2.1 (by decide), ?_, ?_⟩
  · have h := ((add_continuation_headers_spec [⟨0, []⟩, ⟨1, []⟩, ⟨2, []⟩] "s" "f").2.2.1
      (by decide)).2 1 (by decide) (by decide)
    rw [h]
    rfl
  · exact (add_continuation_headers_spec [⟨0, []⟩, ⟨1, []⟩, ⟨2, []⟩] "s" "f").1

/-- C2: `render_attachment` is total (it always returns an HTML string and
records it on the attachment), and whenever the dispatched rendering step
fails, it returns the reference-card HTML, tags the attachment
`"reference"`, and stores the failure's message in the attachment's `error`
field. -/
theorem render_attachment_error_path (libs : RenderLibs) (c : TextCodec) (a : Attachment) :
    ((render_attachment libs c a).2.rendered_content).isSome = true ∧
    (∀ e, try_render libs c a = .error e →
      (render_attachment libs c a).1 = render_reference a ∧
      (render_attachment libs c a).2.content_type = some "reference" ∧
      (render_attachment libs c a).2.error = some e ∧
      (render_attachment libs c a).2.rendered_content = some (render_reference a)) := by
  cases h : try_render libs c a with
  | ok p =>
    refine ⟨?_, ?_⟩
    · simp [render_attachment, h]
    · intro e he
      cases he
  | error e =>
    refine ⟨?_, ?_⟩
    · simp [render_attachment, h]
    · intro e' he'
      have heq : e = e' := by injection he'
      subst heq
      refine ⟨?_, ?_, ?_, ?_⟩ <;> simp [render_attachment, h] <;> rfl

/-- Sample oracle set for the C2 witness: the docx extractor raises. -/
def c2_libs : RenderLibs :=
  { csv_rows := fun _ => .ok [], bleach_clean := fun s => .ok s,
    docx_text := fun _ => .error "bad docx", xlsx_sheets := fun _ => .ok [] }

def c2_codec : TextCodec := { utf8_strict := fun _ => none, utf8_replace := fun _ => "" }

def c2_attachment : Attachment :=
  { filename := "notes.docx", mime_type := "application/x-unknown", size_bytes := 3 }

/-- Witness for C2: a failing docx extraction falls back to the reference
card, tags the attachment `"reference"` and records the error message. -/
theorem render_attachment_error_path_witness :
    try_render c2_libs c2_codec c2_attachment = .error "bad docx" ∧
    (render_attachment c2_libs c2_codec c2_attachment).2.content_type = some "reference" ∧
    (render_attachment c2_libs c2_codec c2_attachment).2.error = some "bad docx" ∧
    (render_attachment c2_libs c2_codec c2_attachment).1 = render_reference c2_attachment :=
  ⟨rfl,
   ((render_attachment_error_path c2_libs c2_codec c2_attachment).2 "bad docx" rfl).2.1,
   ((render_attachment_error_path c2_libs c2_codec c2_attachment).2 "bad docx" rfl).2.2.1,
   ((render_attachment_error_path c2_libs c2_codec c2_attachment).2 "bad docx" rfl).1⟩

/-! ### Lemmas about the dedup loop -/

theorem dedup_emails_subset_and_fresh (l : List Email) (seen : List String) :
    ∀ e ∈ dedup_emails l seen, e ∈ l ∧ e.message_id ∉ seen := by
  induction l generalizing seen with
  | nil => simp [dedup_emails]
  | cons a l ih =>
    intro e he
    unfold dedup_emails at he
    by_cases h : a.message_id ∈ seen
    · rw [if_pos h] at he
      obtain ⟨h1, h2⟩ := ih seen e he
      exact ⟨List.mem_cons_of_mem _ h1, h2⟩
    · rw [if_neg h] at he
      rcases List.mem_cons.mp he with rfl | he'
      · exact ⟨List.mem_cons_self _ _, h⟩
      · obtain ⟨h1, h2⟩ := ih _ e he'
        exact ⟨List.mem_cons_of_mem _ h1, fun hc => h2 (List.mem_cons_of_mem _ hc)⟩

theorem dedup_emails_nodup (l : List Email) (seen : List String) :
    ((dedup_emails l seen).map (fun e => e.message_id)).Nodup := by
  induction l generalizing seen with
  | nil => simp [dedup_emails]
  | cons a l ih =>
    unfold dedup_emails
    by_cases h : a.message_id ∈ seen
    · rw [if_pos h]
      exact ih seen
    · rw [if_neg h]
      simp only [List.map_cons, List.nodup_cons]
      refine ⟨?_, ih _⟩
      intro hc
      obtain ⟨e, he, hid⟩ := List.mem_map.mp hc
      exact (dedup_emails_subset_and_fresh l _ e he).2 (hid ▸ List.mem_cons_self _ _)

theorem dedup_emails_keeps_first (l : List Email) (seen : List String) (x : String) (e : Email)
    (hx : x ∉ seen) (hf : l.find? (fun a => a.message_id == x) = some e) :
    e ∈ dedup_emails l seen := by
  induction l generalizing seen with
  | nil => simp at hf
  | cons a l ih =>
    rw [List.find?_cons] at hf
    cases hax : (a.message_id == x) with
    | true =>
      rw [hax] at hf
      have hea : a = e := by simpa using hf
      subst hea
      have hid : a.message_id = x := by simpa using hax
      unfold dedup_emails
      rw [if_neg (hid ▸ hx)]
      exact List.mem_cons_self _ _
    | false =>
      rw [hax] at hf
      unfold dedup_emails
      by_cases h : a.message_id ∈ seen
      · rw [if_pos h]
        exact ih seen hx hf
      · rw [if_neg h]
        refine List.mem_cons_of_mem _ (ih _ ?_ hf)
        intro hc
        rcases List.mem_cons.mp hc with h1 | h1
        · rw [h1] at hax
          simp at hax
        · exact hx h1

theorem dedup_emails_append (l1 l2 : List Email) (seen : List String) :
    dedup_emails (l1 ++ l2) seen =
      dedup_emails l1 seen ++ dedup_emails l2 (seen_after l1 seen) := by
  induction l1 generalizing seen with
  | nil => simp [dedup_emails, seen_after]
  | cons a l ih =>
    by_cases h : a.message_id ∈ seen <;>
      simp [dedup_emails, seen_after, h, ih]

theorem subset_seen_after (l : List Email) (seen : List String) :
    ∀ x ∈ seen, x ∈ seen_after l seen := by
  induction l generalizing seen with
  | nil => simp [seen_after]
  | cons a l ih =>
    intro x hx
    unfold seen_after
    by_cases h : a.message_id ∈ seen
    · rw [if_pos h]
      exact ih seen x hx
    · rw [if_neg h]
      exact ih _ x (List.mem_cons_of_mem _ hx)

theorem mem_seen_after (l : List Email) (seen : List String) (e : Email) (he : e ∈ l) :
    e.message_id ∈ seen_after l seen := by
  induction l generalizing seen with
  | nil => cases he
  | cons a l ih =>
    unfold seen_after
    by_cases h : a.message_id ∈ seen
    · rw [if_pos h]
      rcases List.mem_cons.mp he with rfl | he'
      · exact subset_seen_after l seen _ h
      · exact ih seen he'
    · rw [if_neg h]
      rcases List.mem_cons.mp he with rfl | he'
      · exact subset_seen_after l _ _ (List.mem_cons_self _ _)
      · exact ih _ he'

theorem dedup_emails_nil_of_seen (l : List Email) (seen : List String)
    (h : ∀ e ∈ l, e.message_id ∈ seen) : dedup_emails l seen = [] := by
  induction l with
  | nil => rfl
  | cons a l ih =>
    unfold dedup_emails
    rw [if_pos (h a (List.mem_cons_self _ _))]
    exact ih (fun e he => h e (List.mem_cons_of_mem _ he))

/-- `merge_and_deduplicate`'s file loop, when every read succeeds, is the
dedup filter over the concatenation of the per-file parses (the processing
order). -/
theorem merge_loop_ok (contents : String → List MboxMessage) (paths : List String)
    (seen : List String) :
    merge_loop (fun p => .ok (contents p)) paths seen =
      .ok (dedup_emails ((paths.map (fun p => parse_mbox (contents p))).flatten) seen) := by
  induction paths generalizing seen with
  | nil => simp [merge_loop, dedup_emails]
  | cons p ps ih =>
    simp only [merge_loop, List.map_cons, List.flatten_cons]
    rw [ih (seen_after (parse_mbox (contents p)) seen), dedup_emails_append]

theorem merge_and_deduplicate_ok (contents : String → List MboxMessage) (paths : List String) :
    merge_and_deduplicate (fun p => .ok (contents p)) paths =
      .ok ((dedup_emails ((paths.map (fun p => parse_mbox (contents p))).flatten)
        []).mergeSort emailDateLe) := by
  unfold merge_and_deduplicate
  rw [merge_loop_ok]

/-- C3: over any successfully parsed inputs, `merge_and_deduplicate` yields an
output in which (i) no two emails share a message identifier, (ii) every email
comes from the concatenated per-file parses, (iii) the email kept for an
identifier is the first occurrence in processing order (file order first, so
duplicates across files keep the earliest file's copy), (iv) the output is
sorted by date ascending, and (v) merging a file with itself equals merging it
once (idempotent, hence the same email count). -/
theorem merge_and_deduplicate_spec (contents : String → List MboxMessage) (paths : List String) :
    ∃ out, merge_and_deduplicate (fun p => .ok (contents p)) paths = .ok out ∧
      (out.map (fun e => e.message_id)).Nodup ∧
      (∀ e ∈ out, e ∈ (paths.map (fun p => parse_mbox (contents p))).flatten) ∧
      (∀ x e, ((paths.map (fun p => parse_mbox (contents p))).flatten).find?
          (fun a => a.message_id == x) = some e → e ∈ out) ∧
      out.Pairwise (fun a b => emailDateLe a b = true) ∧
      (∀ q : String, merge_and_deduplicate (fun p => .ok (contents p)) [q, q] =
        merge_and_deduplicate (fun p => .ok (contents p)) [q]) := by
  refine ⟨_, merge_and_deduplicate_ok contents paths, ?_, ?_, ?_, ?_, ?_⟩
  · exact (((List.mergeSort_perm _ _).map _).nodup_iff).mpr (dedup_emails_nodup _ _)
  · intro e he
    rw [List.mem_mergeSort] at he
    exact (dedup_emails_subset_and_fresh _ _ e he).1
  · intro x e hf
    rw [List.mem_mergeSort]
    exact dedup_emails_keeps_first _ _ x e (by simp) hf
  · exact List.sorted_mergeSort
      (fun a b c hab hbc => emailDateLe_trans a b c hab hbc)
      (fun a b => emailDateLe_total a b) _
  · intro q
    rw [merge_and_deduplicate_ok, merge_and_deduplicate_ok]
    have : dedup_emails (parse_mbox (contents q) ++ parse_mbox (contents q)) [] =
        dedup_emails (parse_mbox (contents q)) [] := by
      rw [dedup_emails_append]
      rw [dedup_emails_nil_of_seen _ _ (fun e he => mem_seen_after _ _ e he)]
      simp
    simp only [List.map_cons, List.map_nil, List.flatten_cons, List.flatten_nil,
      List.append_nil]
    rw [this]

/-- In a list whose message identifiers are pairwise distinct, at most one
element carries any given identifier. -/
theorem length_filter_le_one_of_nodup_map (l : List Email) (x : String)
    (h : (l.map (fun e => e.message_id)).Nodup) :
    (l.filter (fun e => e.message_id == x)).length ≤ 1 := by
  induction l with
  | nil => simp
  | cons a l ih =>
    simp only [List.map_cons, List.nodup_cons] at h
    by_cases hax : a.message_id = x
    · rw [List.filter_cons_of_pos (by simp [hax])]
      have hnil : l.filter (fun e => e.message_id == x) = [] := by
        rw [List.filter_eq_nil_iff]
        intro e he
        simp only [beq_iff_eq]
        intro hex
        exact h.1 (List.mem_map.mpr ⟨e, he, hex.trans hax.symm⟩)
      simp [hnil]
    · rw [List.filter_cons_of_neg (by simp [hax])]
      exact ih h.2

/-- Sample message for the C3 witness: one message with a `Message-ID`. -/
def c3_msg : MboxMessage :=
  { message_id := some "a", date_parsed := some ⟨2008, 1, 4, 9, 30, 0⟩ }

/-- The email `_parse_message` produces for `c3_msg`. -/
def c3_email : Email :=
  { message_id := "a", from_addr := "", to_addr := "",
    date := ⟨2008, 1, 4, 9, 30, 0⟩, subject := "", body_text := "" }

/-- Witness for C3 at one concrete mailbox. -/
theorem merge_and_deduplicate_spec_witness :
    ∃ out, merge_and_deduplicate (fun _ => .ok [c3_msg]) ["p"] = .ok out ∧
      c3_email ∈ out ∧ (out.map (fun e => e.message_id)).Nodup ∧
      merge_and_deduplicate (fun _ => .ok [c3_msg]) ["p", "p"] =
        merge_and_deduplicate (fun _ => .ok [c3_msg]) ["p"] := by
  obtain ⟨out, h1, h2, h3, h4, h5, h6⟩ := merge_and_deduplicate_spec (fun _ => [c3_msg]) ["p"]
  refine ⟨out, h1, ?_, h2, h6 "p"⟩
  apply h4 "a" c3_email
  simp [parse_mbox, parse_message, c3_msg, c3_email, List.find?]

/-- A message with no `Message-ID` header, for the C9/C10 analysis. -/
def c9_msg : MboxMessage := { date_parsed := some ⟨2008, 1, 4, 0, 0, 0⟩ }

/-- The email `_parse_message` produces for `c9_msg`: its identifier is the
empty string. -/
def c9_email : Email :=
  { message_id := "", from_addr := "", to_addr := "",
    date := ⟨2008, 1, 4, 0, 0, 0⟩, subject := "", body_text := "" }

/-- C9 counterexample: a deduplicated sequence can contain an email whose
message identifier is the empty string — the "non-empty" half of the claimed
invariant fails for messages parsed without a `Message-ID` header. -/
theorem message_id_nonempty_counterexample :
    ∃ out, merge_and_deduplicate (fun _ => .ok [c9_msg]) ["p"] = .ok out ∧
      ∃ e ∈ out, e.message_id = "" := by
  refine ⟨_, merge_and_deduplicate_ok (fun _ => [c9_msg]) ["p"], ⟨c9_email, ?_, rfl⟩⟩
  simp [parse_mbox, parse_message, c9_msg, dedup_emails, c9_email]

/-- C9 (amended): message identifiers are unique within any deduplicated
sequence, but need not be non-empty — a source message without a `Message-ID`
header yields the empty string as its identifier. -/
theorem message_id_unique_amended (contents : String → List MboxMessage) (paths : List String)
    (out : List Email) (h : merge_and_deduplicate (fun p => .ok (contents p)) paths = .ok out) :
    (out.map (fun e => e.message_id)).Nodup := by
  rw [merge_and_deduplicate_ok] at h
  have hout : out = (dedup_emails ((paths.map (fun p => parse_mbox (contents p))).flatten)
      []).mergeSort emailDateLe := by
    injection h with h'
    exact h'.symm
  rw [hout]
  exact (((List.mergeSort_perm _ _).map _).nodup_iff).mpr (dedup_emails_nodup _ _)

/-- Witness for the amended C9. -/
theorem message_id_unique_amended_witness :
    (([c9_email] : List Email).map (fun e => e.message_id)).Nodup :=
  message_id_unique_amended (fun _ => [c9_msg]) ["p"] [c9_email]
    (by simp [merge_and_deduplicate_ok, parse_mbox, parse_message, c9_msg, dedup_emails, c9_email])

/-- First id-less message in file order, but dated later than the second. -/
def c10_msg_a : MboxMessage :=
  { subject := some "A", date_parsed := some ⟨2008, 1, 5, 0, 0, 0⟩ }

/-- Second id-less message in file order, dated earlier. -/
def c10_msg_b : MboxMessage :=
  { subject := some "B", date_parsed := some ⟨2008, 1, 4, 0, 0, 0⟩ }

/-- The parsed email for `c10_msg_b`. -/
def c10_email_b : Email :=
  { message_id := "", from_addr := "", to_addr := "",
    date := ⟨2008, 1, 4, 0, 0, 0⟩, subject := "B", body_text := "" }

unseal List.merge List.mergeSort in
/-- C10 counterexample: with two id-less messages in one file where the first
(in message order) is dated later, the surviving id-less email is the SECOND
message ("B"), not the first — `parse_mbox` date-sorts each file before
deduplication, so "file order then message order" does not describe the
survivor. -/
theorem idless_first_wins_counterexample :
    ∃ out, merge_and_deduplicate (fun _ => .ok [c10_msg_a, c10_msg_b]) ["p"] = .ok out ∧
      out.map (fun e => e.subject) = ["B"] := by
  refine ⟨_, merge_and_deduplicate_ok (fun _ => [c10_msg_a, c10_msg_b]) ["p"], ?_⟩
  decide

/-- C10 (amended): a parsed message without a `Message-ID` header receives the
empty string as identifier; across any run at most one id-less email survives,
and the survivor is the first id-less email in processing order — file order,
then the per-file date-ascending (stable) parse order — with all later
id-less messages dropped as duplicates. -/
theorem idless_first_wins_amended :
    (∀ (m : MboxMessage) (d : DateTime), m.message_id = none → m.date_parsed = some d →
      ∃ em, parse_message m = some em ∧ em.message_id = "") ∧
    (∀ (contents : String → List MboxMessage) (paths : List String) (out : List Email),
      merge_and_deduplicate (fun p => .ok (contents p)) paths = .ok out →
      (out.filter (fun e => e.message_id == "")).length ≤ 1 ∧
      (∀ e, ((paths.map (fun p => parse_mbox (contents p))).flatten).find?
          (fun a => a.message_id == "") = some e → e ∈ out)) := by
  constructor
  · intro m d hm hd
    unfold parse_message
    rw [hd]
    refine ⟨_, rfl, ?_⟩
    simp [hm]
  · intro contents paths out h
    rw [merge_and_deduplicate_ok] at h
    have hout : out = (dedup_emails ((paths.map (fun p => parse_mbox (contents p))).flatten)
        []).mergeSort emailDateLe := by
      injection h with h'
      exact h'.symm
    subst hout
    constructor
    · exact length_filter_le_one_of_nodup_map _ _
        ((((List.mergeSort_perm _ _).map _).nodup_iff).mpr (dedup_emails_nodup _ _))
    · intro e hf
      rw [List.mem_mergeSort]
      exact dedup_emails_keeps_first _ _ "" e (by simp) hf

unseal List.merge List.mergeSort in
/-- Witness for the amended C10 at the two-message mailbox. -/
theorem idless_first_wins_amended_witness :
    (∃ em, parse_message c9_msg = some em ∧ em.message_id = "") ∧
    (([c10_email_b] : List Email).filter (fun e => e.message_id == "")).length ≤ 1 ∧
    c10_email_b ∈ ([c10_email_b] : List Email) := by
  have h2 := idless_first_wins_amended.2 (fun _ => [c10_msg_a, c10_msg_b]) ["p"] [c10_email_b]
    (by rw [merge_and_deduplicate_ok]; exact congrArg Except.ok (by decide))
  exact ⟨idless_first_wins_amended.1 c9_msg ⟨2008, 1, 4, 0, 0, 0⟩ rfl rfl,
    h2.1, h2.2 c10_email_b (by decide)⟩

/-! ### Lemmas about the grouping fold -/

theorem flatten_addToGroup (gs : List (String × List Email)) (key : String) (e : Email) :
    ((addToGroup gs key e).map (fun kv => kv.2)).flatten.Perm
      (e :: (gs.map (fun kv => kv.2)).flatten) := by
  induction gs with
  | nil => simp [addToGroup]
  | cons kv gs ih =>
    obtain ⟨k, es⟩ := kv
    unfold addToGroup
    by_cases h : k = key
    · rw [if_pos h]
      simp only [List.map_cons, List.flatten_cons]
      exact (List.perm_append_singleton e es).append_right _
    · rw [if_neg h]
      simp only [List.map_cons, List.flatten_cons]
      exact (ih.append_left es).trans List.perm_middle

theorem flatten_foldl_addToGroup (emails : List Email) (strategy : String)
    (gs : List (String × List Email)) :
    (((emails.foldl (fun gs e => addToGroup gs (get_group_key e.date strategy) e) gs)).map
      (fun kv => kv.2)).flatten.Perm ((gs.map (fun kv => kv.2)).flatten ++ emails) := by
  induction emails generalizing gs with
  | nil => simp
  | cons e es ih =>
    simp only [List.foldl_cons]
    exact (ih _).trans
      (((flatten_addToGroup gs _ e).append_right es).trans List.perm_middle.symm)

theorem flatten_map_bucket_mergeSort (gs : List (String × List Email)) :
    ((gs.map (fun kv => (kv.1, kv.2.mergeSort emailDateLe))).map (fun kv => kv.2)).flatten.Perm
      ((gs.map (fun kv => kv.2)).flatten) := by
  induction gs with
  | nil => simp
  | cons kv gs ih =>
    simp only [List.map_cons, List.flatten_cons]
    exact (List.mergeSort_perm kv.2 emailDateLe).append ih

theorem groupKeyLe_trans (a b c : String × List Email)
    (hab : groupKeyLe a b) (hbc : groupKeyLe b c) : groupKeyLe a c := by
  simp only [groupKeyLe, decide_eq_true_eq] at *
  exact le_trans hab hbc

theorem groupKeyLe_total (a b : String × List Email) : groupKeyLe a b || groupKeyLe b a := by
  simp only [groupKeyLe, Bool.or_eq_true, decide_eq_true_eq]
  exact le_total a.1 b.1

/-- C4: for a non-empty email list and a valid strategy, the grouping
round-trips — the concatenation of the buckets is a permutation of the input
(no email lost or duplicated), every bucket is sorted by date ascending, and
the keys appear in ascending order. -/
theorem group_emails_by_date_round_trip (emails : List Email) (strategy : String)
    (hne : emails ≠ []) (hs : strategy ∈ (["month", "quarter", "year"] : List String)) :
    ∃ groups, group_emails_by_date emails strategy = .ok groups ∧
      ((groups.map (fun kv => kv.2)).flatten).Perm emails ∧
      (∀ kv ∈ groups, kv.2.Pairwise (fun a b => emailDateLe a b = true)) ∧
      (groups.map (fun kv => kv.1)).Pairwise (fun a b => a ≤ b) := by
  have heq : group_emails_by_date emails strategy =
      .ok (((emails.foldl (fun gs e => addToGroup gs (get_group_key e.date strategy) e)
        []).map (fun kv => (kv.1, kv.2.mergeSort emailDateLe))).mergeSort groupKeyLe) := by
    unfold group_emails_by_date
    rw [if_neg (not_not_intro hs), if_neg hne]
  refine ⟨_, heq, ?_, ?_, ?_⟩
  · exact (((List.mergeSort_perm _ groupKeyLe).map _).flatten).trans
      ((flatten_map_bucket_mergeSort _).trans (flatten_foldl_addToGroup emails strategy []))
  · intro kv hkv
    rw [List.mem_mergeSort] at hkv
    obtain ⟨kv0, _, rfl⟩ := List.mem_map.mp hkv
    exact List.sorted_mergeSort
      (fun a b c hab hbc => emailDateLe_trans a b c hab hbc)
      (fun a b => emailDateLe_total a b) _
  · have hp := List.sorted_mergeSort
      (fun a b c hab hbc => groupKeyLe_trans a b c hab hbc)
      (fun a b => groupKeyLe_total a b)
      ((emails.foldl (fun gs e => addToGroup gs (get_group_key e.date strategy) e)
        []).map (fun kv => (kv.1, kv.2.mergeSort emailDateLe)))
    rw [List.pairwise_map]
    exact hp.imp (fun hab => by simpa [groupKeyLe] using hab)

/-- Witness emails for C4: two emails in different months. -/
def c4_email_jan : Email :=
  { message_id := "j", from_addr := "", to_addr := "",
    date := ⟨2008, 1, 4, 0, 0, 0⟩, subject := "", body_text := "" }

def c4_email_feb : Email :=
  { message_id := "f", from_addr := "", to_addr := "",
    date := ⟨2008, 2, 10, 0, 0, 0⟩, subject := "", body_text := "" }

/-- Witness for C4 at a concrete two-email, two-bucket input. -/
theorem group_emails_by_date_round_trip_witness :
    ∃ groups, group_emails_by_date [c4_email_jan, c4_email_feb] "month" = .ok groups ∧
      ((groups.map (fun kv => kv.2)).flatten).Perm [c4_email_jan, c4_email_feb] ∧
      (groups.map (fun kv => kv.1)).Pairwise (fun a b => a ≤ b) := by
  obtain ⟨groups, h1, h2, h3, h4⟩ :=
    group_emails_by_date_round_trip [c4_email_jan, c4_email_feb] "month"
      (by decide) (by decide)
  exact ⟨groups, h1, h2, h4⟩

/-! ### Lemmas about the orchestrator -/

theorem group_emails_by_date_ok_of_mem (emails : List Email) (strategy : String)
    (hs : strategy ∈ (["month", "quarter", "year"] : List String)) :
    ∃ gs, group_emails_by_date emails strategy = .ok gs := by
  unfold group_emails_by_date
  rw [if_neg (not_not_intro hs)]
  by_cases he : emails = [] <;> simp [he]

theorem mem_errors_process_email_step (env : ConvEnv) (acc : ConvState × List (List PdfPage))
    (email : Email) (x : String) (hx : x ∈ acc.1.errors) :
    x ∈ (process_email_step env acc email).1.errors := by
  unfold process_email_step
  simp only []
  cases env.generate_pdf (render_email_to_html env.libs env.codec email).1 <;>
    simp [hx]

theorem mem_errors_foldl_steps (env : ConvEnv) (ges : List Email)
    (acc : ConvState × List (List PdfPage)) (x : String) (hx : x ∈ acc.1.errors) :
    x ∈ (ges.foldl (process_email_step env) acc).1.errors := by
  induction ges generalizing acc with
  | nil => exact hx
  | cons a l ih => exact ih _ (mem_errors_process_email_step env acc a x hx)

theorem error_recorded_of_generate_fail (env : ConvEnv) (acc : ConvState × List (List PdfPage))
    (email : Email) (e : String)
    (he : env.generate_pdf (render_email_to_html env.libs env.codec email).1 = .error e) :
    ("Failed to process email \x27" ++ email.subject ++ "\x27: " ++ e) ∈
      (process_email_step env acc email).1.errors := by
  unfold process_email_step
  simp only []
  rw [he]
  simp

theorem error_recorded_in_fold (env : ConvEnv) (ges : List Email)
    (acc : ConvState × List (List PdfPage)) (email : Email) (e : String)
    (hmem : email ∈ ges)
    (he : env.generate_pdf (render_email_to_html env.libs env.codec email).1 = .error e) :
    ("Failed to process email \x27" ++ email.subject ++ "\x27: " ++ e) ∈
      (ges.foldl (process_email_step env) acc).1.errors := by
  induction ges generalizing acc with
  | nil => cases hmem
  | cons a l ih =>
    rcases List.mem_cons.mp hmem with rfl | hmem'
    · exact mem_errors_foldl_steps env l _ _
        (error_recorded_of_generate_fail env acc email e he)
    · exact ih _ hmem'

theorem mem_errors_process_group_of_fold (env : ConvEnv) (st : ConvState)
    (output_dir group_key : String) (ges : List Email) (x : String)
    (hx : x ∈ (ges.foldl (process_email_step env) (st, [])).1.errors) :
    x ∈ (process_group env st output_dir group_key ges).errors := by
  unfold process_group merge_pdfs
  simp only []
  by_cases hp : (ges.foldl (process_email_step env) (st, ([] : List (List PdfPage)))).2 = []
  · simp [hp, hx]
  · rw [if_neg hp]
    cases env.write_pdf ((ges.foldl (process_email_step env) (st, [])).2).flatten
      (output_dir ++ "/" ++ group_key ++ ".pdf") <;> simp [hx]

theorem merge_error_recorded (env : ConvEnv) (st : ConvState)
    (output_dir group_key : String) (ges : List Email) (e : String)
    (hne : (ges.foldl (process_email_step env) (st, [])).2 ≠ [])
    (hw : env.write_pdf ((ges.foldl (process_email_step env) (st, [])).2).flatten
        (output_dir ++ "/" ++ group_key ++ ".pdf") = .error e) :
    ("Failed to merge PDFs for " ++ group_key ++ ": " ++ e) ∈
      (process_group env st output_dir group_key ges).errors := by
  unfold process_group merge_pdfs
  simp only []
  rw [if_neg hne]
  rw [hw]
  simp

/-- C1 (amended): with a VALID grouping strategy the orchestrator never
raises: any parse failure becomes an early-returned failed `ConversionResult`,
a failed per-email PDF generation is recorded as a `Failed to process email`
entry while the run continues, and a failed per-group merge write is recorded
as a `Failed to merge PDFs` entry.  (The invalid-strategy `ValueError` from
`group_emails_by_date`, by contrast, propagates to the caller: see the
counterexample.) -/
theorem convert_mbox_to_pdfs_amended :
    (∀ (env : ConvEnv) (mbox_paths : List String) (output_dir strategy : String),
      strategy ∈ (["month", "quarter", "year"] : List String) →
      (convert_mbox_to_pdfs env mbox_paths output_dir strategy).isOk = true) ∧
    (∀ (env : ConvEnv) (mbox_paths : List String) (output_dir strategy : String) (e : String),
      merge_and_deduplicate env.read_mbox mbox_paths = .error e →
      convert_mbox_to_pdfs env mbox_paths output_dir strategy =
        .ok { success := false, pdfs_created := 0, emails_processed := 0,
              errors := ["Failed to parse mbox files: " ++ e], created_files := [] }) ∧
    (∀ (env : ConvEnv) (st : ConvState) (output_dir group_key : String)
        (ges : List Email) (email : Email) (e : String),
      email ∈ ges →
      env.generate_pdf (render_email_to_html env.libs env.codec email).1 = .error e →
      ("Failed to process email \x27" ++ email.subject ++ "\x27: " ++ e) ∈
        (process_group env st output_dir group_key ges).errors) ∧
    (∀ (env : ConvEnv) (st : ConvState) (output_dir group_key : String)
        (ges : List Email) (e : String),
      (ges.foldl (process_email_step env) (st, [])).2 ≠ [] →
      env.write_pdf ((ges.foldl (process_email_step env) (st, [])).2).flatten
          (output_dir ++ "/" ++ group_key ++ ".pdf") = .error e →
      ("Failed to merge PDFs for " ++ group_key ++ ": " ++ e) ∈
        (process_group env st output_dir group_key ges).errors) := by
  refine ⟨?_, ?_, ?_, ?_⟩
  · intro env mbox_paths output_dir strategy hs
    unfold convert_mbox_to_pdfs
    cases hm : merge_and_deduplicate env.read_mbox mbox_paths with
    | error e => simp [Except.isOk, Except.toBool]
    | ok emails =>
      by_cases he : emails = []
      · simp [he, Except.isOk, Except.toBool]
      · obtain ⟨gs, hgs⟩ := group_emails_by_date_ok_of_mem emails strategy hs
        simp [he, hgs, Except.isOk, Except.toBool]
  · intro env mbox_paths output_dir strategy e hm
    unfold convert_mbox_to_pdfs
    simp only [hm]
  · intro env st output_dir group_key ges email e hmem he
    exact mem_errors_process_group_of_fold env st output_dir group_key ges _
      (error_recorded_in_fold env ges (st, []) email e hmem he)
  · intro env st output_dir group_key ges e hne hw
    exact merge_error_recorded env st output_dir group_key ges e hne hw

/-- A one-message mailbox for the C1 analysis. -/
def c1_msg : MboxMessage :=
  { message_id := some "m1", date_parsed := some ⟨2008, 1, 4, 0, 0, 0⟩ }

/-- The email parsed from `c1_msg`. -/
def c1_email : Email :=
  { message_id := "m1", from_addr := "", to_addr := "",
    date := ⟨2008, 1, 4, 0, 0, 0⟩, subject := "", body_text := "" }

/-- An environment in which every black box succeeds. -/
def c1_env : ConvEnv :=
  { read_mbox := fun _ => .ok [c1_msg],
    libs := { csv_rows := fun _ => .ok [], bleach_clean := fun s => .ok s,
              docx_text := fun _ => .ok [], xlsx_sheets := fun _ => .ok [] },
    codec := { utf8_strict := fun _ => none, utf8_replace := fun _ => "" },
    generate_pdf := fun _ => .ok [],
    write_pdf := fun _ _ => .ok () }

theorem c1_parse_single : merge_and_deduplicate c1_env.read_mbox ["a"] = .ok [c1_email] := by
  show merge_and_deduplicate (fun _ => .ok [c1_msg]) ["a"] = .ok [c1_email]
  rw [merge_and_deduplicate_ok]
  refine congrArg Except.ok ?_
  have hp : parse_message c1_msg = some c1_email := rfl
  simp [parse_mbox, hp, dedup_emails, c1_email]

/-- C1 counterexample: with one parsed email and the invalid strategy
`"invalid"`, `convert_mbox_to_pdfs` raises the grouping `ValueError` to its
caller instead of returning a `ConversionResult` — the call to
`group_emails_by_date` at the orchestrator is not wrapped in a `try`. -/
theorem convert_raises_on_invalid_strategy :
    convert_mbox_to_pdfs c1_env ["a"] "out" "invalid" =
      .error ("Invalid grouping strategy: \x27invalid\x27. Must be \x27month\x27, \x27quarter\x27, or \x27year\x27.") := by
  have hg : group_emails_by_date [c1_email] "invalid" =
      .error ("Invalid grouping strategy: \x27invalid\x27. Must be \x27month\x27, \x27quarter\x27, or \x27year\x27.") := by
    unfold group_emails_by_date
    rw [if_pos (by decide)]
    rfl
  unfold convert_mbox_to_pdfs
  rw [c1_parse_single]
  simp [hg]

def c1_read_fail_env : ConvEnv := { c1_env with read_mbox := fun _ => .error "boom" }

def c1_gen_fail_env : ConvEnv := { c1_env with generate_pdf := fun _ => .error "kaboom" }

def c1_write_fail_env : ConvEnv := { c1_env with write_pdf := fun _ _ => .error "werr" }

/-- Witness for the amended C1: each clause at a concrete instance. -/
theorem convert_mbox_to_pdfs_amended_witness :
    (convert_mbox_to_pdfs c1_env ["a"] "out" "month").isOk = true ∧
    convert_mbox_to_pdfs c1_read_fail_env ["a"] "out" "month" =
      .ok { success := false, pdfs_created := 0, emails_processed := 0,
            errors := ["Failed to parse mbox files: boom"], created_files := [] } ∧
    ("Failed to process email \x27\x27: kaboom") ∈
      (process_group c1_gen_fail_env {} "out" "2008-01-January" [c1_email]).errors ∧
    ("Failed to merge PDFs for 2008-01-January: werr") ∈
      (process_group c1_write_fail_env {} "out" "2008-01-January" [c1_email]).errors := by
  refine ⟨convert_mbox_to_pdfs_amended.1 c1_env ["a"] "out" "month" (by decide),
    convert_mbox_to_pdfs_amended.2.1 c1_read_fail_env ["a"] "out" "month" "boom" rfl,
    ?_, ?_⟩
  · have h := convert_mbox_to_pdfs_amended.2.2.1 c1_gen_fail_env {} "out" "2008-01-January"
      [c1_email] c1_email "kaboom" (List.mem_cons_self _ _) rfl
    simpa using h
  · exact convert_mbox_to_pdfs_amended.2.2.2 c1_write_fail_env {} "out" "2008-01-January"
      [c1_email] "werr" (by decide) rfl

end Mbox
